import Mathlib

/-!
Shallow embedding of the AWS CodeArtifact CDK constructs
(`packages/aws-cdk-lib/aws-codeartifact/lib/domain.ts` and
`lib/repository.ts`) together with theorems checking the
natural-language specification against the code.

Conventions of the embedding:
* a TypeScript value that may be `undefined` is an `Option`;
* JavaScript string truthiness (`undefined` and `""` are falsy) is the
  `truthy` function below;
* code that throws returns `Except`;
* the IAM `PolicyDocument` collaborator is a list of statements, with
  `addStatements` appending;
* the source file contains two revisions of the domain module; where
  they differ both are embedded (`mkImportedDomainV1` for the
  `ImportedDomain` class of the first revision, `fromDomainAttributesV2`
  for the `fromDomainAttributes` of the second revision).
-/

namespace CodeArtifact

/-- JavaScript truthiness of a possibly-undefined string: `undefined`
and the empty string are falsy. -/
def truthy : Option String → Bool
  | none => false
  | some s => !(s = "")

/-- Effect of an IAM policy statement. -/
inductive Effect where
  | allow
  | deny
deriving Repr, DecidableEq

/-- An IAM principal; `accountRoot` is `new iam.AccountRootPrincipal()`. -/
inductive Principal where
  | accountRoot
  | arnPrincipal (arn : String)
deriving Repr, DecidableEq

/-- An IAM policy statement, with the fields the embedded code sets. -/
structure PolicyStatement where
  effect : Effect
  principals : List Principal
  actions : List String
  resources : List String
deriving Repr, DecidableEq

/-- An IAM policy document: its ordered list of statements.
`addStatements` appends to it. -/
abbrev PolicyDocument := List PolicyStatement

/-- Result record of `addToResourcePolicy`
(`iam.AddToResourcePolicyResult`); `policyDependable` holds the
contents of the document the statement went into, when one was added. -/
structure AddToResourcePolicyResult where
  statementAdded : Bool
  policyDependable : Option PolicyDocument
deriving Repr, DecidableEq

/-- The account, region and partition of the deploying `Stack`. -/
structure StackInfo where
  account : String
  region : String
  partition : String
deriving Repr, DecidableEq

/-- Components of a split ARN (`ArnComponents` of the CDK core),
for `ArnFormat.SLASH_RESOURCE_NAME`. -/
structure ArnComponents where
  partition : Option String
  service : Option String
  region : Option String
  account : Option String
  resource : String
  resourceName : Option String
deriving Repr, DecidableEq

/-- JavaScript `String.split` with a single-character separator,
accumulator form, by structural recursion on the character list. -/
def jsSplitAux (sep : Char) : List Char → List Char → List (List Char)
  | [], acc => [acc.reverse]
  | x :: xs, acc =>
    if x = sep then acc.reverse :: jsSplitAux sep xs []
    else jsSplitAux sep xs (x :: acc)

/-- JavaScript `String.split` with a single-character separator:
`"a:b".split(":")` is `["a", "b"]` and `"".split(":")` is `[""]`. -/
def jsSplit (s : String) (sep : Char) : List String :=
  (jsSplitAux sep s.data []).map String.mk

/-- Join strings with a separator, by structural recursion. -/
def joinWith (sep : String) : List String → String
  | [] => ""
  | [x] => x
  | x :: xs => x ++ sep ++ joinWith sep xs

/-- Split a resource section at its first slash: the part before it is
the resource type, the part after it (slashes included) the resource
name; with no slash there is no resource name. -/
def splitResourceSection (s : String) : String × Option String :=
  match jsSplit s '/' with
  | [] => (s, none)
  | [x] => (x, none)
  | x :: rest => (x, some (joinWith "/" rest))

/-- `Stack.splitArn(arn, ArnFormat.SLASH_RESOURCE_NAME)` of the CDK
core: split on colons, require at least six components, take partition,
service, region and account positionally, and split the remainder at
its first slash into resource and resource name. -/
def splitArnSlash (arn : String) : Except String ArnComponents :=
  let components := jsSplit arn ':'
  if components.length < 6 then
    .error ("ARNs must have at least 6 components: " ++ arn)
  else
    let resourceSection := joinWith ":" (components.drop 5)
    let rn := splitResourceSection resourceSection
    .ok { partition := components[1]?, service := components[2]?,
          region := components[3]?, account := components[4]?,
          resource := rn.1, resourceName := rn.2 }

/-- View of an `IDomain` as the repository code consumes it, and the
value produced by the first-revision `ImportedDomain` class: ARN, name
and owner, each possibly undefined. -/
structure DomainRef where
  domainArn : Option String := none
  domainName : Option String := none
  domainOwner : Option String := none
deriving Repr, DecidableEq

/-- `DomainAttributes` of the first revision of `domain.ts`. -/
structure DomainAttributes where
  domainArn : Option String := none
  domainName : Option String := none
  domainOwner : Option String := none
deriving Repr, DecidableEq

/-- `Stack.formatArn` as used by `ImportedDomain` for the name branch:
`arn:partition:codeartifact:region:account:domain/name`. -/
def formatDomainArn (stack : StackInfo) (account name : String) : String :=
  "arn:" ++ stack.partition ++ ":codeartifact:" ++ stack.region ++ ":"
    ++ account ++ ":domain/" ++ name

/-- The `ImportedDomain` constructor of the first revision of
`domain.ts`: mutual-exclusion checks, then the ARN branch (name from
the split ARN resource name, owner from the fifth colon field), then
the name branch (owner defaulting to the stack account, ARN formatted
from owner and name). Fields left unassigned stay undefined. -/
def mkImportedDomainV1 (stack : StackInfo) (props : DomainAttributes) :
    Except String DomainRef :=
  if truthy props.domainArn && truthy props.domainName then
    .error "domainArn and domainName are mutually exclusive"
  else if truthy props.domainArn && truthy props.domainOwner then
    .error "domainArn and domainOwner are mutually exclusive"
  else
    let afterArn : Except String DomainRef :=
      if truthy props.domainArn then
        match splitArnSlash (props.domainArn.getD "") with
        | .error e => .error e
        | .ok c =>
          .ok { domainArn := props.domainArn,
                domainName := c.resourceName,
                domainOwner := (jsSplit (props.domainArn.getD "") ':')[4]? }
      else .ok {}
    match afterArn with
    | .error e => .error e
    | .ok st =>
      if truthy props.domainName then
        let owner := if truthy props.domainOwner then props.domainOwner
                     else some stack.account
        .ok { domainName := props.domainName,
              domainOwner := owner,
              domainArn := some (formatDomainArn stack (owner.getD "")
                                  (props.domainName.getD "")) }
      else .ok st

/-- KMS key collaborator: the two fields the domain code reads. -/
structure KmsKey where
  keyId : String
  keyArn : String
deriving Repr, DecidableEq

/-- `DomainAttributes` of the second revision of `domain.ts`:
`domainArn` is required there. -/
structure DomainAttributesV2 where
  domainArn : String
  domainName : Option String := none
  domainOwner : Option String := none
  domainEncryptionKey : Option KmsKey := none
deriving Repr, DecidableEq

/-- The anonymous `Import` resource built by the second revision of
`Domain.fromDomainAttributes`. -/
structure ImportV2 where
  domainArn : String
  domainName : Option String := none
  domainOwner : Option String := none
  domainEncryptionKey : Option KmsKey := none
deriving Repr, DecidableEq

/-- `Domain.fromDomainAttributes` of the second revision of
`domain.ts`: the name is the supplied one or else the resource name of
the split ARN; it errors only when no name results; it assigns name,
ARN and encryption key to the imported resource and never assigns
`domainOwner`. -/
def fromDomainAttributesV2 (attrs : DomainAttributesV2) :
    Except String ImportV2 :=
  match
    (if truthy attrs.domainName then .ok attrs.domainName
     else match splitArnSlash attrs.domainArn with
          | .error e => .error e
          | .ok c => .ok c.resourceName : Except String (Option String)) with
  | .error e => .error e
  | .ok domainName =>
    if truthy domainName then
      .ok { domainArn := attrs.domainArn, domainName := domainName,
            domainOwner := none,
            domainEncryptionKey := attrs.domainEncryptionKey }
    else .error "Domain name is required as a resource name with the ARN"

/-- A pattern constraint: the source text of the regular expression (as
it prints in error messages) and the matching test it denotes — the
unanchored JavaScript `test` semantics, as a decidable predicate. -/
structure FieldPattern where
  source : String
  test : String → Bool

/-- Constraint record accepted by the field validator. -/
structure FieldConstraints where
  required : Bool := false
  minLength : Option Nat := none
  maxLength : Option Nat := none
  pattern : Option FieldPattern := none
  documentationLink : String

/-- Whether the value is shorter than the minimum length. -/
def minViolated (c : FieldConstraints) (v : String) : Bool :=
  match c.minLength with
  | some m => v.length < m
  | none => false

/-- Whether the value is longer than the maximum length. -/
def maxViolated (c : FieldConstraints) (v : String) : Bool :=
  match c.maxLength with
  | some m => m < v.length
  | none => false

/-- Whether the value fails the pattern test. -/
def patternViolated (c : FieldConstraints) (v : String) : Bool :=
  match c.pattern with
  | some p => !(p.test v)
  | none => false

/-- Suffix pointing at the provider documentation, appended to length
messages when a pattern constraint is also present. -/
def docSuffix (c : FieldConstraints) : String :=
  match c.pattern with
  | some _ => " Must match rules from " ++ c.documentationLink
  | none => ""

/-- Message for a maximum-length violation. -/
def maxLengthMessage (name : String) (c : FieldConstraints) : String :=
  name ++ ": must be less than " ++ toString (c.maxLength.getD 0)
    ++ " characters long." ++ docSuffix c

/-- Message for a minimum-length violation. -/
def minLengthMessage (name : String) (c : FieldConstraints) : String :=
  name ++ ": must be more than " ++ toString (c.minLength.getD 0)
    ++ " characters long." ++ docSuffix c

/-- Message for a pattern violation. -/
def patternMessage (name : String) (c : FieldConstraints) : String :=
  name ++ ": must match pattern "
    ++ (match c.pattern with | some p => p.source | none => "")
    ++ ". Must match rules from " ++ c.documentationLink

/-- Modelled from the spec: the generic field validator
`validate(fieldName, constraints, value)` of `lib/validation.ts`, a
file whose source is not part of the embedded sources. Per the spec it
fails when a required value is absent, when the length is out of
bounds, and when the value does not match the pattern, in that order,
with the error-message templates of the spec; an absent or empty value
that is not required passes (the code passes the empty string for an
absent encryption key and such domains construct successfully in the
tests). -/
def validateField (name : String) (c : FieldConstraints)
    (value : Option String) : Except String Unit :=
  let v := value.getD ""
  if v.length = 0 then
    if c.required then .error (name ++ ": is required") else .ok ()
  else if minViolated c v then .error (minLengthMessage name c)
  else if maxViolated c v then .error (maxLengthMessage name c)
  else if patternViolated c v then .error (patternMessage name c)
  else .ok ()

/-- Character class `[A-Za-z0-9]`, the first atom of the repository
name pattern. -/
def isRepoNameStart (c : Char) : Bool := c.isAlphanum

/-- Character class `[A-Za-z0-9._-]`, the repeated atom of the
repository name pattern. -/
def isRepoNameTail (c : Char) : Bool :=
  c.isAlphanum || c = '.' || c = '_' || c = '-'

/-- Unanchored test of `[A-Za-z0-9][A-Za-z0-9._-]` repeated 1 to 99
times: because the repetition lower bound is 1 and the bound 99 never
binds for existence, a match exists exactly when some position holds a
start character immediately followed by a tail character. -/
def repoNameTestAux : List Char → Bool
  | a :: b :: rest =>
    (isRepoNameStart a && isRepoNameTail b) || repoNameTestAux (b :: rest)
  | _ => false

/-- Test of the repository name pattern on a string. -/
def repoNamePatternTest (s : String) : Bool := repoNameTestAux s.data

/-- Character class `[a-z]` under the case-insensitive flag: letters. -/
def isDomainNameStart (c : Char) : Bool := c.isAlpha

/-- Character class `[a-z0-9-]` under the case-insensitive flag. -/
def isDomainNameMid (c : Char) : Bool := c.isAlphanum || c = '-'

/-- Character class `[a-z0-9]` under the case-insensitive flag. -/
def isDomainNameEnd (c : Char) : Bool := c.isAlphanum

/-- After the leading letter of the domain name pattern: up to `fuel`
middle characters followed by a final alphanumeric character. -/
def domainNameTailTest : Nat → List Char → Bool
  | _, [] => false
  | fuel, c :: rest =>
    if isDomainNameEnd c then true
    else if isDomainNameMid c then
      match fuel with
      | 0 => false
      | f + 1 => domainNameTailTest f rest
    else false

/-- Unanchored test of the domain name pattern
`[a-z][a-z0-9-]` (0 to 48 times) `[a-z0-9]`, case-insensitive. -/
def domainNameTestAux : List Char → Bool
  | [] => false
  | c :: rest =>
    (isDomainNameStart c && domainNameTailTest 48 rest)
      || domainNameTestAux rest

/-- Test of the domain name pattern on a string. -/
def domainNamePatternTest (s : String) : Bool := domainNameTestAux s.data

/-- Control characters (category Cc), the core of the character class
`\P` of category `C` used by the description pattern. -/
def isUnicodeControl (c : Char) : Bool :=
  c.val < 0x20 || (0x7f ≤ c.val && c.val ≤ 0x9f)

/-- Unanchored test of the description pattern: at least one
non-control character. -/
def descriptionPatternTest (s : String) : Bool :=
  s.data.any (fun c => !isUnicodeControl c)

/-- Unanchored test of the encryption key pattern `\S+`: at least one
non-whitespace character. -/
def nonWhitespacePatternTest (s : String) : Bool :=
  s.data.any (fun c => !c.isWhitespace)

/-- Constraints for `RepositoryName` as passed by
`Repository.validateProps`. -/
def repositoryNameConstraints : FieldConstraints :=
  { required := true, minLength := some 2, maxLength := some 100,
    pattern := some { source := "[A-Za-z0-9][A-Za-z0-9._\\-]\x7b1,99\x7d",
                      test := repoNamePatternTest },
    documentationLink := "https://docs.aws.amazon.com/AWSCloudFormation/latest/UserGuide/aws-resource-codeartifact-repository.html#cfn-codeartifact-repository-repositoryname" }

/-- Constraints for `DomainName` as passed by
`Repository.validateProps`. -/
def repositoryDomainNameConstraints : FieldConstraints :=
  { required := true, minLength := some 2, maxLength := some 50,
    pattern := some { source := "[a-z][a-z0-9\\-]\x7b0,48\x7d[a-z0-9]",
                      test := domainNamePatternTest },
    documentationLink := "https://docs.aws.amazon.com/AWSCloudFormation/latest/UserGuide/aws-resource-codeartifact-repository.html#cfn-codeartifact-repository-domainname" }

/-- Constraints for `Description` as passed by
`Repository.validateProps`. -/
def descriptionConstraints : FieldConstraints :=
  { maxLength := some 1000,
    pattern := some { source := "\\P\x7bC\x7d+",
                      test := descriptionPatternTest },
    documentationLink := "https://docs.aws.amazon.com/AWSCloudFormation/latest/UserGuide/aws-resource-codeartifact-repository.html#cfn-codeartifact-repository-description" }

/-- Constraints for `DomainName` as passed by `Domain.validateProps`. -/
def domainDomainNameConstraints : FieldConstraints :=
  { required := true, minLength := some 2, maxLength := some 50,
    pattern := some { source := "[a-z][a-z0-9\\-]\x7b0,48\x7d[a-z0-9]",
                      test := domainNamePatternTest },
    documentationLink := "https://docs.aws.amazon.com/AWSCloudFormation/latest/UserGuide/aws-resource-codeartifact-domain.html#cfn-codeartifact-domain-domainname" }

/-- Constraints for `EncryptionKey` as passed by
`Domain.validateProps`. -/
def encryptionKeyConstraints : FieldConstraints :=
  { minLength := some 1, maxLength := some 2048,
    pattern := some { source := "\\S+", test := nonWhitespacePatternTest },
    documentationLink := "https://docs.aws.amazon.com/AWSCloudFormation/latest/UserGuide/aws-resource-codeartifact-domain.html#cfn-codeartifact-domain-encryptionkey" }

/-- A domain name prop value: either a concrete string or an
unresolved token (`Token.isUnresolved` of the CDK core is true exactly
on the latter). -/
inductive DomainNameValue where
  | resolved (s : String)
  | unresolvedToken (display : String)
deriving Repr, DecidableEq

/-- Errors thrown while constructing a `Domain`: the must-resolve
throw of `validateProps`, or a validator message. -/
inductive DomainErr where
  | mustResolve (raw : String)
  | validation (msg : String)
deriving Repr, DecidableEq

/-- `DomainProps` of `domain.ts`. -/
structure DomainProps where
  domainName : Option DomainNameValue := none
  domainEncryptionKey : Option KmsKey := none
  principal : Option Principal := none
  policyDocument : Option PolicyDocument := none

/-- The `CfnDomain` resource record as the `Domain` constructor fills
it; `permissionsPolicyDocument` holds what the lazy producer resolves
to, the contents of the policy document of the props. -/
structure CfnDomain where
  domainName : String
  permissionsPolicyDocument : Option PolicyDocument
  encryptionKey : Option String
deriving Repr, DecidableEq

/-- A constructed `Domain` with the fields the claims read. -/
structure Domain where
  cfnDomain : CfnDomain
  domainName : String
  policyDocument : Option PolicyDocument
deriving Repr, DecidableEq

/-- The `Domain` constructor (identical in both revisions of
`domain.ts` for the embedded fields): default the name to the construct
id, reject an unresolved name, validate name and encryption key ARN,
then build the `CfnDomain` and record the props policy document. -/
def constructDomain (id : String) (props : DomainProps) :
    Except DomainErr Domain :=
  match props.domainName.getD (.resolved id) with
  | .unresolvedToken t => .error (.mustResolve t)
  | .resolved domainName =>
    match validateField "DomainName" domainDomainNameConstraints
        (some domainName) with
    | .error m => .error (.validation m)
    | .ok _ =>
      match validateField "EncryptionKey" encryptionKeyConstraints
          (some ((props.domainEncryptionKey.map KmsKey.keyArn).getD "")) with
      | .error m => .error (.validation m)
      | .ok _ =>
        .ok { cfnDomain := { domainName := domainName,
                             permissionsPolicyDocument := props.policyDocument,
                             encryptionKey :=
                               props.domainEncryptionKey.map KmsKey.keyId },
              domainName := domainName,
              policyDocument := props.policyDocument }

/-- `Domain.addToResourcePolicy` (identical in both revisions): when no
policy document is stored, add the statement to a freshly created
document and report it added; otherwise report nothing added. No field
of the domain is assigned in either branch, so the domain comes back
unchanged. -/
def domainAddToResourcePolicy (d : Domain) (s : PolicyStatement) :
    AddToResourcePolicyResult × Domain :=
  match d.policyDocument with
  | none => ({ statementAdded := true, policyDependable := some [s] }, d)
  | some _ => ({ statementAdded := false, policyDependable := none }, d)

/-- What the repository constructor reads from an upstream
`IRepository`: its name. -/
structure RepositoryRef where
  repositoryName : String
deriving Repr, DecidableEq

/-- An external connection identifier; the enumeration values are
opaque strings passed through unvalidated. -/
abbrev ExternalConnection := String

/-- Removal policy applied to the underlying resource. -/
inductive RemovalPolicy where
  | retain
  | destroy
  | snapshot
deriving Repr, DecidableEq

/-- `RepositoryProps` of `repository.ts`. -/
structure RepositoryProps where
  repositoryName : Option String := none
  description : Option String := none
  repositoryDomain : DomainRef
  upstreams : Option (List RepositoryRef) := none
  externalConnections : Option (List ExternalConnection) := none
  principal : Option Principal := none
  policyDocument : Option PolicyDocument := none
  removalPolicy : Option RemovalPolicy := none

/-- The `CfnRepository` resource record as the constructor and the
mutators fill it. -/
structure CfnRepository where
  domainName : String
  domainOwner : Option String
  repositoryName : String
  description : Option String
  upstreams : Option (List String)
  externalConnections : Option (List ExternalConnection)
  permissionsPolicyDocument : Option PolicyDocument
  removalPolicy : Option RemovalPolicy
deriving Repr, DecidableEq

/-- A constructed `Repository`: the underlying resource record, the
construct-level fields, and the build-order dependencies recorded on
the construct node (`this.node.addDependency(u)` for each upstream). -/
structure Repository where
  cfnRepository : CfnRepository
  repositoryName : String
  repositoryDomain : DomainRef
  dependencies : List RepositoryRef
deriving Repr, DecidableEq

/-- `Repository.validateProps`: description, domain name and
repository name, in this order. -/
def repoValidateProps (repositoryName : String)
    (repositoryDomainName : Option String)
    (repositoryDescription : Option String) : Except String Unit :=
  match validateField "Description" descriptionConstraints
      repositoryDescription with
  | .error e => .error e
  | .ok _ =>
    match validateField "DomainName" repositoryDomainNameConstraints
        repositoryDomainName with
    | .error e => .error e
    | .ok _ =>
      match validateField "RepositoryName" repositoryNameConstraints
          (some repositoryName) with
      | .error e => .error e
      | .ok _ => .ok ()

/-- `Repository.addToResourcePolicy` on the underlying resource: take
the stored permissions policy document or a fresh one, append the
statement, and store it back. -/
def cfnAddStatement (cfn : CfnRepository) (s : PolicyStatement) :
    CfnRepository :=
  { cfn with
    permissionsPolicyDocument :=
      (some ((cfn.permissionsPolicyDocument.getD []) ++ [s])) }

/-- The allow-statement `allowReadFromRepository` appends: the nine
read actions for the principal on every resource. -/
def readFromRepositoryStatement (p : Principal) : PolicyStatement :=
  { effect := .allow, principals := [p],
    actions := ["codeartifact:DescribePackageVersion",
                "codeartifact:DescribeRepository",
                "codeartifact:GetPackageVersionReadme",
                "codeartifact:GetRepositoryEndpoint",
                "codeartifact:ListPackageVersionAssets",
                "codeartifact:ListPackageVersionDependencies",
                "codeartifact:ListPackageVersions",
                "codeartifact:ListPackages",
                "codeartifact:ReadFromRepository"],
    resources := ["*"] }

/-- The allow-statement `allowWriteToRepository` appends with its
default resources: the two publish actions for the principal on every
resource. -/
def writeToRepositoryStatement (p : Principal) : PolicyStatement :=
  { effect := .allow, principals := [p],
    actions := ["codeartifact:PublishPackageVersion",
                "codeartifact:PutPackageMetadata"],
    resources := ["*"] }

/-- The part of the `Repository` constructor after validation: build
the `CfnRepository` (upstream names mapped in order, external
connections attached), record a dependency on each upstream, then
either grant the given or default principal read and write (no policy
document supplied) or attach the supplied policy document wholesale,
and finally apply the removal policy, defaulting to retain. -/
def buildRepository (id : String) (props : RepositoryProps) : Repository :=
  let repositoryName := props.repositoryName.getD id
  let cfn0 : CfnRepository :=
    { domainName := props.repositoryDomain.domainName.getD "",
      domainOwner := props.repositoryDomain.domainOwner,
      repositoryName := repositoryName,
      description := props.description,
      upstreams := props.upstreams.map (List.map RepositoryRef.repositoryName),
      externalConnections := props.externalConnections,
      permissionsPolicyDocument := none,
      removalPolicy := none }
  let cfn1 :=
    match props.policyDocument with
    | none =>
      let p := props.principal.getD Principal.accountRoot
      cfnAddStatement (cfnAddStatement cfn0 (readFromRepositoryStatement p))
        (writeToRepositoryStatement p)
    | some doc => { cfn0 with permissionsPolicyDocument := some doc }
  let cfn2 :=
    { cfn1 with removalPolicy :=
        (some (props.removalPolicy.getD RemovalPolicy.retain)) }
  { cfnRepository := cfn2, repositoryName := repositoryName,
    repositoryDomain := props.repositoryDomain,
    dependencies := props.upstreams.getD [] }

/-- The `Repository` constructor: validate the props, then build. -/
def constructRepository (id : String) (props : RepositoryProps) :
    Except String Repository :=
  match repoValidateProps (props.repositoryName.getD id)
      props.repositoryDomain.domainName props.description with
  | .error e => .error e
  | .ok _ => .ok (buildRepository id props)

/-- JavaScript `a || b` on strings: `b` when `a` is empty. -/
def stringOr (a b : String) : String := if a = "" then b else a

/-- `Repository.withExternalConnections`: overwrite the underlying
external-connection list, but only when the argument list is
non-empty. -/
def withExternalConnections (r : Repository)
    (externalConnections : List ExternalConnection) : Repository :=
  if externalConnections.length = 0 then r
  else
    { r with cfnRepository :=
        { r.cfnRepository with externalConnections :=
            (some externalConnections) } }

/-- `Repository.withUpstream`: overwrite the underlying upstream list
with the names of the given repositories. -/
def withUpstream (r : Repository) (repository : List RepositoryRef) :
    Repository :=
  { r with cfnRepository :=
      { r.cfnRepository with upstreams :=
          (some (repository.map (fun f => stringOr f.repositoryName ""))) } }

/-- `RepositoryAttributes` of `repository.ts`. -/
structure RepositoryAttributes where
  repositoryArn : Option String := none
  repositoryName : Option String := none
  repositoryDescription : Option String := none
  repositoryDomain : Option DomainRef := none

/-- An imported repository built by the `ImportedRepository` class. -/
structure ImportedRepository where
  repositoryArn : Option String
  repositoryName : Option String
  repositoryDomain : DomainRef
deriving Repr, DecidableEq

/-- The `ImportedRepository` constructor: mutual-exclusion and
presence checks, then the ARN branch — split the ARN, split its
resource name on slashes (an absent resource name degrades to an empty
value whose indexing yields undefined), take element 1 as the
repository name and element 2 as the imported domain name, pass the
ARN account as the owner — or else the name-and-domain branch. -/
def mkImportedRepository (stack : StackInfo)
    (props : RepositoryAttributes) : Except String ImportedRepository :=
  if truthy props.repositoryArn && truthy props.repositoryName then
    .error "repositoryArn and repositoryName are mutually exclusive"
  else if truthy props.repositoryArn && props.repositoryDomain.isSome then
    .error "repositoryDomain and repositoryArn are mutually exclusive"
  else if !(truthy props.repositoryArn)
      && !(truthy props.repositoryName && props.repositoryDomain.isSome) then
    .error "Either repositoryArn or repositoryName, repositoryDomain must be provided"
  else if truthy props.repositoryArn then
    match splitArnSlash (props.repositoryArn.getD "") with
    | .error e => .error e
    | .ok c =>
      let domainRepo : List String :=
        match c.resourceName with
        | some rn => jsSplit rn '/'
        | none => []
      match mkImportedDomainV1 stack
          { domainName := domainRepo[2]?,
            domainOwner := some (c.account.getD "") } with
      | .error e => .error e
      | .ok dom =>
        .ok { repositoryArn := props.repositoryArn,
              repositoryName := domainRepo[1]?,
              repositoryDomain := dom }
  else
    match props.repositoryName, props.repositoryDomain with
    | some n, some d =>
      .ok { repositoryArn := none, repositoryName := some n,
            repositoryDomain := d }
    | _, _ =>
      .error "Either repositoryArn or repositoryName, repositoryDomain must be provided"

/-- `Repository.fromRepositoryArn`: import with only the ARN set. -/
def fromRepositoryArn (stack : StackInfo) (repositoryArn : String) :
    Except String ImportedRepository :=
  mkImportedRepository stack { repositoryArn := some repositoryArn }

end CodeArtifact

namespace CodeArtifact

/-! Helper lemmas shared by the claim theorems. -/

/-- A successfully constructed domain stores the policy document of
its props, both on the construct and on the underlying resource. -/
theorem constructDomain_ok_policy (id : String) (props : DomainProps)
    (d : Domain) (h : constructDomain id props = .ok d) :
    d.policyDocument = props.policyDocument
    ∧ d.cfnDomain.permissionsPolicyDocument = props.policyDocument := by
  unfold constructDomain at h
  split at h
  · exact (Except.noConfusion h)
  · split at h
    · exact (Except.noConfusion h)
    · split at h
      · exact (Except.noConfusion h)
      · injection h with h
        subst h
        exact ⟨rfl, rfl⟩

/-- A successfully constructed repository is the built one. -/
theorem constructRepository_ok (id : String) (props : RepositoryProps)
    (r : Repository) (h : constructRepository id props = .ok r) :
    r = buildRepository id props := by
  unfold constructRepository at h
  split at h
  · exact (Except.noConfusion h)
  · injection h with h
    exact h.symm

/-- JavaScript `a || ""` on a string is the string itself. -/
theorem stringOr_empty (a : String) : stringOr a "" = a := by
  unfold stringOr
  split
  · rename_i h
    exact h.symm
  · rfl

/-- Stack used by the concrete evaluations and witnesses. -/
def demoStack : StackInfo :=
  { account := "123456789012", region := "us-east-1", partition := "aws" }

/-- A placeholder domain, only used as the unreachable fallback when
extracting a domain from a successful construction. -/
def fallbackDomain : Domain :=
  { cfnDomain := { domainName := "", permissionsPolicyDocument := none,
                   encryptionKey := none },
    domainName := "", policyDocument := none }

/-- The domain built by `new Domain(stack, "domain")` with empty props. -/
def demoDomain : Domain :=
  match constructDomain "domain" {} with
  | .ok d => d
  | .error _ => fallbackDomain

/-- A concrete policy statement, like the one of the tests. -/
def demoStatement : PolicyStatement :=
  { effect := .allow, principals := [.accountRoot],
    actions := ["codeartifact:DescribePackageVersion"], resources := [] }

end CodeArtifact

namespace CodeArtifact

/-- C1: evaluating `Repository.fromRepositoryArn` at the literal ARN
`arn:aws:codeartifact:region-id:123456789012:repository/my-domain/my-repo`
gives an imported repository whose `repositoryName` is `my-repo`, but
whose imported domain has no domain name at all (and no owner): the
code reads index 2 of the two-element split of the resource name
`my-domain/my-repo`, so the domain name passed on is undefined, instead
of the `my-domain` the claim states. -/
theorem fromRepositoryArn_literal_eval :
    fromRepositoryArn demoStack
      "arn:aws:codeartifact:region-id:123456789012:repository/my-domain/my-repo" =
    .ok { repositoryArn :=
            some "arn:aws:codeartifact:region-id:123456789012:repository/my-domain/my-repo",
          repositoryName := some "my-repo",
          repositoryDomain :=
            { domainArn := none, domainName := none, domainOwner := none } } := by
  rfl

/-- C2: for every statement, `Domain.addToResourcePolicy` reports the
statement added exactly when no policy document was supplied in the
construction props; when one was supplied it reports nothing added and
leaves the domain as it is. -/
theorem domain_addToResourcePolicy_statementAdded (id : String)
    (props : DomainProps) (s : PolicyStatement) (d : Domain)
    (h : constructDomain id props = .ok d) :
    ((domainAddToResourcePolicy d s).1.statementAdded = true
      ↔ props.policyDocument = none)
    ∧ (props.policyDocument.isSome = true →
        (domainAddToResourcePolicy d s).1.statementAdded = false
        ∧ (domainAddToResourcePolicy d s).2 = d) := by
  have hp : d.policyDocument = props.policyDocument :=
    (constructDomain_ok_policy id props d h).1
  cases hq : props.policyDocument with
  | none =>
    have hd : d.policyDocument = none := by rw [hp, hq]
    refine ⟨?_, ?_⟩
    · simp [domainAddToResourcePolicy, hd]
    · intro hs
      simp at hs
  | some doc =>
    have hd : d.policyDocument = some doc := by rw [hp, hq]
    refine ⟨?_, ?_⟩
    · simp [domainAddToResourcePolicy, hd]
    · intro _
      simp [domainAddToResourcePolicy, hd]

/-- C2 witness: on a domain constructed without a policy document the
call reports the statement added. -/
theorem domain_addToResourcePolicy_statementAdded_witness :
    (domainAddToResourcePolicy demoDomain demoStatement).1.statementAdded = true :=
  ((domain_addToResourcePolicy_statementAdded "domain" {} demoStatement
    demoDomain rfl).1).mpr rfl

/-- C3: in the statement-added branch (no policy document supplied at
construction), the call leaves the domain unchanged — in particular its
`policyDocument` field and the permissions policy document of the
underlying resource — and the statement lives only in the freshly
created document returned as the policy dependable. -/
theorem domain_addToResourcePolicy_frame (id : String)
    (props : DomainProps) (s : PolicyStatement) (d : Domain)
    (h : constructDomain id props = .ok d)
    (hp : props.policyDocument = none) :
    (domainAddToResourcePolicy d s).2 = d
    ∧ (domainAddToResourcePolicy d s).2.policyDocument = d.policyDocument
    ∧ (domainAddToResourcePolicy d s).2.cfnDomain.permissionsPolicyDocument
        = d.cfnDomain.permissionsPolicyDocument
    ∧ (domainAddToResourcePolicy d s).1.statementAdded = true
    ∧ (domainAddToResourcePolicy d s).1.policyDependable = some [s] := by
  have hd : d.policyDocument = none := by
    rw [(constructDomain_ok_policy id props d h).1, hp]
  simp [domainAddToResourcePolicy, hd]

/-- C3 witness: the frame property at a concrete domain and statement. -/
theorem domain_addToResourcePolicy_frame_witness :
    (domainAddToResourcePolicy demoDomain demoStatement).2 = demoDomain
    ∧ (domainAddToResourcePolicy demoDomain demoStatement).2.policyDocument
        = demoDomain.policyDocument
    ∧ (domainAddToResourcePolicy demoDomain demoStatement).2.cfnDomain.permissionsPolicyDocument
        = demoDomain.cfnDomain.permissionsPolicyDocument
    ∧ (domainAddToResourcePolicy demoDomain demoStatement).1.statementAdded = true
    ∧ (domainAddToResourcePolicy demoDomain demoStatement).1.policyDependable
        = some [demoStatement] :=
  domain_addToResourcePolicy_frame "domain" {} demoStatement demoDomain rfl rfl

/-- C7: whenever the domain name prop is an unresolved token, domain
construction fails at once with the must-resolve error, before the
underlying resource is built; the name is never deferred. -/
theorem constructDomain_rejects_unresolved_name (id : String)
    (props : DomainProps) (t : String)
    (h : props.domainName = some (.unresolvedToken t)) :
    constructDomain id props = .error (.mustResolve t) := by
  unfold constructDomain
  rw [h]
  rfl

/-- C7 witness: a concrete unresolved token is rejected. -/
theorem constructDomain_rejects_unresolved_name_witness :
    constructDomain "domain"
      { domainName := some (.unresolvedToken "TOKEN") } =
    .error (.mustResolve "TOKEN") :=
  constructDomain_rejects_unresolved_name "domain"
    { domainName := some (.unresolvedToken "TOKEN") } "TOKEN" rfl

end CodeArtifact

namespace CodeArtifact

/-- C4: a repository constructed without a policy document gets, on its
underlying resource, exactly the read allow-statement followed by the
write allow-statement for the given principal (defaulting to the
account root principal); a repository constructed with a policy
document gets that document wholesale and no default grant — the two
paths are mutually exclusive. -/
theorem repository_default_policy (id : String) (props : RepositoryProps)
    (r : Repository) (h : constructRepository id props = .ok r) :
    (props.policyDocument = none →
      r.cfnRepository.permissionsPolicyDocument =
        some [readFromRepositoryStatement (props.principal.getD .accountRoot),
              writeToRepositoryStatement (props.principal.getD .accountRoot)])
    ∧ (∀ doc, props.policyDocument = some doc →
        r.cfnRepository.permissionsPolicyDocument = some doc) := by
  have hr : r = buildRepository id props := constructRepository_ok id props r h
  subst hr
  constructor
  · intro hp
    simp [buildRepository, cfnAddStatement, hp]
  · intro doc hp
    simp [buildRepository, hp]

/-- The props of the plain domain-and-repository fixture of the tests,
without a policy document. -/
def c4props : RepositoryProps :=
  { repositoryName := some "example-repo",
    repositoryDomain := { domainName := some "example-domain" } }

/-- A placeholder repository, only used as the unreachable fallback
when extracting a repository from a successful construction. -/
def fallbackRepository : Repository :=
  { cfnRepository := { domainName := "", domainOwner := none,
                       repositoryName := "", description := none,
                       upstreams := none, externalConnections := none,
                       permissionsPolicyDocument := none,
                       removalPolicy := none },
    repositoryName := "", repositoryDomain := {}, dependencies := [] }

/-- The repository built from `c4props`. -/
def c4repo : Repository :=
  match constructRepository "repository" c4props with
  | .ok r => r
  | .error _ => fallbackRepository

/-- C4 witness: the fixture repository carries the default read and
write statements for the account root principal. -/
theorem repository_default_policy_witness :
    c4repo.cfnRepository.permissionsPolicyDocument =
      some [readFromRepositoryStatement .accountRoot,
            writeToRepositoryStatement .accountRoot] :=
  (repository_default_policy "repository" c4props c4repo rfl).1 rfl

/-- C9: a repository constructed with a non-empty upstream list records
every upstream, in order, as a build-order dependency of its construct
node, and the underlying resource's upstream list is exactly the list
of the upstream names in the given order. -/
theorem repository_upstreams_recorded (id : String)
    (props : RepositoryProps) (us : List RepositoryRef) (r : Repository)
    (h1 : props.upstreams = some us) (_hne : us ≠ [])
    (h : constructRepository id props = .ok r) :
    r.dependencies = us
    ∧ r.cfnRepository.upstreams = some (us.map RepositoryRef.repositoryName) := by
  have hr : r = buildRepository id props := constructRepository_ok id props r h
  subst hr
  cases hp : props.policyDocument with
  | none =>
    exact ⟨by simp [buildRepository, h1],
           by simp [buildRepository, cfnAddStatement, h1, hp]⟩
  | some doc =>
    exact ⟨by simp [buildRepository, h1],
           by simp [buildRepository, h1, hp]⟩

/-- The props of the upstream fixture of the tests: a second repository
with the first one upstream. -/
def c9props : RepositoryProps :=
  { repositoryName := some "example-repo-2",
    repositoryDomain := { domainName := some "example-domain" },
    upstreams := some [{ repositoryName := "example-repo-1" }] }

/-- The repository built from `c9props`. -/
def c9repo : Repository :=
  match constructRepository "repository-2" c9props with
  | .ok r => r
  | .error _ => fallbackRepository

/-- C9 witness: the fixture records its single upstream as a
dependency and lists its name on the resource. -/
theorem repository_upstreams_recorded_witness :
    c9repo.dependencies = [{ repositoryName := "example-repo-1" }]
    ∧ c9repo.cfnRepository.upstreams = some ["example-repo-1"] :=
  repository_upstreams_recorded "repository-2" c9props
    [{ repositoryName := "example-repo-1" }] c9repo rfl (by decide) rfl

end CodeArtifact

namespace CodeArtifact

/-- Repository props with the valid fixture domain and a given name. -/
def c8props (n : String) : RepositoryProps :=
  { repositoryName := some n,
    repositoryDomain := { domainName := some "example-domain" } }

/-- C8: constructing a repository whose name has length 101 or more
fails with the repository-name length-violation message, and
constructing one named `@@@@@` (length in bounds) fails with the
pattern-violation message naming the pattern and the documentation
link. -/
theorem repositoryName_validation_messages (n : String)
    (h : 101 ≤ n.length) :
    constructRepository "repository-1" (c8props n) =
      .error "RepositoryName: must be less than 100 characters long. Must match rules from https://docs.aws.amazon.com/AWSCloudFormation/latest/UserGuide/aws-resource-codeartifact-repository.html#cfn-codeartifact-repository-repositoryname"
    ∧ constructRepository "repository-1" (c8props "@@@@@") =
      .error "RepositoryName: must match pattern [A-Za-z0-9][A-Za-z0-9._\\-]\x7b1,99\x7d. Must match rules from https://docs.aws.amazon.com/AWSCloudFormation/latest/UserGuide/aws-resource-codeartifact-repository.html#cfn-codeartifact-repository-repositoryname" := by
  constructor
  · have hne : ¬(n.length = 0) := by omega
    have hmin : ¬(minViolated repositoryNameConstraints n = true) := by
      simp [minViolated, repositoryNameConstraints]
      omega
    have hmax : maxViolated repositoryNameConstraints n = true := by
      simp [maxViolated, repositoryNameConstraints]
      omega
    have hval : validateField "RepositoryName" repositoryNameConstraints
        (some n) =
        .error "RepositoryName: must be less than 100 characters long. Must match rules from https://docs.aws.amazon.com/AWSCloudFormation/latest/UserGuide/aws-resource-codeartifact-repository.html#cfn-codeartifact-repository-repositoryname" := by
      unfold validateField
      simp only [Option.getD_some]
      rw [if_neg hne, if_neg hmin, if_pos hmax]
      rfl
    have hdesc : validateField "Description" descriptionConstraints none
        = .ok () := rfl
    have hdom : validateField "DomainName" repositoryDomainNameConstraints
        (some "example-domain") = .ok () := rfl
    show constructRepository "repository-1" (c8props n) = _
    unfold constructRepository repoValidateProps c8props
    simp only [Option.getD_some]
    rw [hdesc, hdom, hval]
  · rfl

end CodeArtifact

namespace CodeArtifact

/-- A repository name of 101 letters. -/
def name101 : String := String.mk (List.replicate 101 'a')

/-- C8 witness: the 101-character name of the tests fails with the
length message. -/
theorem repositoryName_validation_messages_witness :
    constructRepository "repository-1" (c8props name101) =
      .error "RepositoryName: must be less than 100 characters long. Must match rules from https://docs.aws.amazon.com/AWSCloudFormation/latest/UserGuide/aws-resource-codeartifact-repository.html#cfn-codeartifact-repository-repositoryname" :=
  (repositoryName_validation_messages name101 (by decide)).1

/-- C5 (amended): through the `ImportedDomain`-based implementation,
importing a domain fails with an immediate error whenever both
`domainArn` and `domainName` are supplied, and whenever both
`domainArn` and `domainOwner` are supplied; the alternative
`fromDomainAttributes` implementation performs no such check. -/
theorem importedDomain_mutually_exclusive_inputs (stack : StackInfo)
    (attrs : DomainAttributes) (h1 : truthy attrs.domainArn = true)
    (h2 : truthy attrs.domainName = true ∨ truthy attrs.domainOwner = true) :
    ∃ e, mkImportedDomainV1 stack attrs = .error e := by
  by_cases hn : truthy attrs.domainName = true
  · refine ⟨"domainArn and domainName are mutually exclusive", ?_⟩
    simp [mkImportedDomainV1, h1, hn]
  · have hn2 : truthy attrs.domainName = false := by
      cases hb : truthy attrs.domainName
      · rfl
      · exact absurd hb hn
    have ho : truthy attrs.domainOwner = true := h2.resolve_left hn
    refine ⟨"domainArn and domainOwner are mutually exclusive", ?_⟩
    simp [mkImportedDomainV1, h1, hn2, ho]

/-- C5 witness: supplying ARN together with name errors at a concrete
input. -/
theorem importedDomain_mutually_exclusive_inputs_witness :
    ∃ e, mkImportedDomainV1 demoStack
      { domainArn := some "arn:aws:codeartifact:us-east-2:444455556666:domain/mydomain",
        domainName := some "mydomain" } = .error e :=
  importedDomain_mutually_exclusive_inputs demoStack
    { domainArn := some "arn:aws:codeartifact:us-east-2:444455556666:domain/mydomain",
      domainName := some "mydomain" }
    (by decide) (Or.inl (by decide))

/-- C5 counterexample: the second-revision `fromDomainAttributes`
accepts ARN together with name, and ARN together with owner, returning
an imported object instead of failing. -/
theorem fromDomainAttributesV2_accepts_arn_with_name_or_owner :
    fromDomainAttributesV2
      { domainArn := "arn:aws:codeartifact:us-east-2:444455556666:domain/mydomain",
        domainName := some "mydomain" } =
      .ok { domainArn := "arn:aws:codeartifact:us-east-2:444455556666:domain/mydomain",
            domainName := some "mydomain" }
    ∧ fromDomainAttributesV2
      { domainArn := "arn:aws:codeartifact:us-east-2:444455556666:domain/mydomain",
        domainOwner := some "444455556666" } =
      .ok { domainArn := "arn:aws:codeartifact:us-east-2:444455556666:domain/mydomain",
            domainName := some "mydomain" } :=
  ⟨rfl, rfl⟩

/-- C6 (amended): through the `ImportedDomain`-based implementation, a
domain imported from an ARN gets as owner the fifth colon-separated
field of that ARN, and a domain imported by name without an owner gets
the deploying stack's account; the alternative `fromDomainAttributes`
implementation never assigns `domainOwner`. -/
theorem importedDomain_owner_derivation (stack : StackInfo)
    (a1 a2 : DomainAttributes) (d1 d2 : DomainRef)
    (h1 : truthy a1.domainArn = true) (h2 : a1.domainName = none)
    (hok1 : mkImportedDomainV1 stack a1 = .ok d1)
    (h3 : a2.domainArn = none) (h4 : truthy a2.domainName = true)
    (h5 : truthy a2.domainOwner = false)
    (hok2 : mkImportedDomainV1 stack a2 = .ok d2) :
    d1.domainOwner = (jsSplit (a1.domainArn.getD "") ':')[4]?
    ∧ d2.domainOwner = some stack.account := by
  constructor
  · have hn1 : truthy a1.domainName = false := by rw [h2]; rfl
    cases ho1 : truthy a1.domainOwner with
    | true =>
      simp [mkImportedDomainV1, h1, hn1, ho1] at hok1
    | false =>
      cases hsp : splitArnSlash (a1.domainArn.getD "") with
      | error e =>
        simp [mkImportedDomainV1, h1, hn1, ho1, hsp] at hok1
      | ok c =>
        simp [mkImportedDomainV1, h1, hn1, ho1, hsp] at hok1
        rw [← hok1]
  · have ha2 : truthy a2.domainArn = false := by rw [h3]; rfl
    simp [mkImportedDomainV1, ha2, h4, h5] at hok2
    rw [← hok2]

end CodeArtifact

namespace CodeArtifact

/-- Import attributes holding only an ARN. -/
def c6arnAttrs : DomainAttributes :=
  { domainArn := some "arn:aws:codeartifact:us-east-2:444455556666:domain/mydomain" }

/-- Import attributes holding only a name. -/
def c6nameAttrs : DomainAttributes := { domainName := some "mydomain" }

/-- The domain imported from `c6arnAttrs`. -/
def c6arnDomain : DomainRef :=
  match mkImportedDomainV1 demoStack c6arnAttrs with
  | .ok d => d
  | .error _ => {}

/-- The domain imported from `c6nameAttrs`. -/
def c6nameDomain : DomainRef :=
  match mkImportedDomainV1 demoStack c6nameAttrs with
  | .ok d => d
  | .error _ => {}

/-- C6 witness: the ARN import takes its owner from the ARN account
field, the name import defaults to the stack account. -/
theorem importedDomain_owner_derivation_witness :
    c6arnDomain.domainOwner = some "444455556666"
    ∧ c6nameDomain.domainOwner = some "123456789012" :=
  importedDomain_owner_derivation demoStack c6arnAttrs c6nameAttrs
    c6arnDomain c6nameDomain (by decide) rfl rfl rfl (by decide) rfl rfl

/-- C6 counterexample: the second-revision `fromDomainAttributes`
leaves `domainOwner` unset on a domain imported from an ARN, although
the fifth colon-separated field of the ARN is the account
`444455556666`. -/
theorem fromDomainAttributesV2_never_sets_owner :
    (fromDomainAttributesV2
      { domainArn := "arn:aws:codeartifact:us-east-2:444455556666:domain/mydomain" }).map
        ImportV2.domainOwner = .ok none
    ∧ (jsSplit "arn:aws:codeartifact:us-east-2:444455556666:domain/mydomain" ':')[4]?
        = some "444455556666" :=
  ⟨rfl, rfl⟩

/-- C10 (amended): `withUpstream` always overwrites the underlying
upstream list with exactly the names of the given repositories, and
`withExternalConnections` overwrites the underlying list with exactly
the given connections whenever the argument list is non-empty; called
with an empty argument list, `withExternalConnections` leaves the
previous value in place. -/
theorem mutators_overwrite (r : Repository)
    (ecs : List ExternalConnection) (ups : List RepositoryRef)
    (h : ecs ≠ []) :
    (withExternalConnections r ecs).cfnRepository.externalConnections = some ecs
    ∧ (withUpstream r ups).cfnRepository.upstreams =
        some (ups.map RepositoryRef.repositoryName) := by
  constructor
  · unfold withExternalConnections
    rw [if_neg]
    simpa using h
  · unfold withUpstream
    simp [stringOr_empty]

/-- Repository props whose external connections are set at
construction time. -/
def c10props : RepositoryProps :=
  { repositoryName := some "example-repo-1",
    repositoryDomain := { domainName := some "example-domain" },
    externalConnections := some ["public:npmjs"] }

/-- The repository built from `c10props`. -/
def c10repo : Repository :=
  match constructRepository "repository-1" c10props with
  | .ok r => r
  | .error _ => fallbackRepository

/-- C10 witness: overwriting with a non-empty connection list and with
an empty upstream list on a concrete repository. -/
theorem mutators_overwrite_witness :
    (withExternalConnections c10repo ["public:npmjs"]).cfnRepository.externalConnections
      = some ["public:npmjs"]
    ∧ (withUpstream c10repo []).cfnRepository.upstreams = some [] :=
  mutators_overwrite c10repo ["public:npmjs"] [] (by decide)

/-- C10 counterexample: calling `withExternalConnections` with an
empty argument list on a repository constructed with the connection
list `["public:npmjs"]` leaves the underlying list at
`["public:npmjs"]`, not at the empty argument list. -/
theorem withExternalConnections_empty_keeps_previous :
    (constructRepository "repository-1" c10props).map
      (fun r => (withExternalConnections r []).cfnRepository.externalConnections)
      = .ok (some ["public:npmjs"])
    ∧ (some ["public:npmjs"] : Option (List ExternalConnection)) ≠ some [] :=
  ⟨rfl, by decide⟩

end CodeArtifact
